import Mathlib

/-!
# Verification of the leave-time-llama session time-accounting engine

Shallow embedding of the work-session state machine, stats projector and
entry ledger of `src/components/WorkdayTracker.tsx`,
`src/hooks/useWorkSession.ts` and `src/hooks/useWorkEntries.ts`.

Modelling conventions:
* Wall-clock instants and durations are milliseconds since the epoch,
  represented as `Int` (all JavaScript arithmetic on `Date.getTime()`
  values here is exact integer arithmetic).
* `midnight` is the instant `new Date().setHours(0,0,0,0)` of the day the
  operation runs; `arrivalToday.setHours(h, m, 0, 0)` becomes
  `midnight + (h*60 + m) * 60000`, and `setDate(getDate() - 1)` becomes
  subtracting `msPerDay` (no DST in the model).
* Nullable columns (`current_session_start`, `pause_start_time`,
  `start_time`, `check_out`, `name`) are `Option` values; ISO-string
  serialisation of an instant and `new Date(string)` parsing are identity
  on this representation.
* Identity and audit columns (`id`, `user_id`, `date`, `created_at`,
  `updated_at`) of `work_sessions` are omitted: no accounting operation
  reads or writes them.  Entries keep `id` and `session_id` because the
  ledger operations look entries up by id.
* The time-input text fields are modelled as `Option Nat`: `none` is the
  empty string, `some n` a numeric string (the source normalises every
  keystroke through `formatTimeInput`, so fields are empty or numeric).
  The required-minutes and manual-pause fields are initialised to `"0"`
  and can never become empty, so they are plain `Nat`.
* Each React state update plus its mirrored Supabase write is one pure
  transition on a `TrackerState`; `dbSession` mirrors the persisted
  `work_sessions` row, which survives `completeSession` even though the
  in-memory `currentSession` is set to `null` there.
-/

/-- Milliseconds in one day; `setDate(getDate() - 1)` subtracts this. -/
def msPerDay : Int := 86400000

/-- Milliseconds in one minute. -/
def msPerMinute : Int := 60000

/-- The `work_sessions` row as loaded into `currentSession`
(`useWorkSession.ts`, interface `WorkSession`), restricted to the fields
the accounting engine reads and writes. -/
structure WorkSession where
  arrival_time : Nat × Nat
  required_work_hours : Nat
  required_work_minutes : Nat
  is_active : Bool
  is_running : Bool
  is_paused : Bool
  start_time : Option Int
  total_worked_ms : Int
  total_paused_ms : Int
  current_session_start : Option Int
  pause_start_time : Option Int
  deriving Repr, DecidableEq

/-- The `work_entries` row (`useWorkEntries.ts`, interface `WorkEntry`),
restricted to the fields the engine reads and writes. -/
structure WorkEntry where
  id : String
  session_id : String
  date : Int
  check_in : Int
  check_out : Option Int
  total_worked_ms : Int
  total_paused_ms : Int
  name : Option String
  status : String
  deriving Repr, DecidableEq

/-- A `Partial<WorkEntry>` update object as passed to `updateEntry`:
`none` means the field is absent from the update. -/
structure EntryUpdate where
  name : Option String := none
  check_out : Option Int := none
  total_worked_ms : Option Int := none
  total_paused_ms : Option Int := none
  status : Option String := none
  deriving Repr, DecidableEq

/-- Merge a partial update into an entry row (the database `update` and
the local `setEntries` replacement both produce this merged row). -/
def applyEntryUpdate (u : EntryUpdate) (e : WorkEntry) : WorkEntry :=
  { e with
    name := match u.name with | some n => some n | none => e.name
    check_out := match u.check_out with | some c => some c | none => e.check_out
    total_worked_ms := u.total_worked_ms.getD e.total_worked_ms
    total_paused_ms := u.total_paused_ms.getD e.total_paused_ms
    status := u.status.getD e.status }

/-- `updateEntry` of `useWorkEntries.ts`: the database updates the row
with the given id and the hook replaces the matching element of the local
list with the merged row; when no row has the id, `.single()` errors and
the list is left unchanged. -/
def updateEntry (es : List WorkEntry) (entryId : String) (u : EntryUpdate) :
    List WorkEntry :=
  if es.any fun e => e.id = entryId then
    es.map fun e => if e.id = entryId then applyEntryUpdate u e else e
  else es

/-- `renameEntry` of `useWorkEntries.ts`: `updateEntry(entryId, { name: newName })`. -/
def renameEntry (es : List WorkEntry) (entryId : String) (newName : String) :
    List WorkEntry :=
  updateEntry es entryId { name := some newName }

/-- The in-memory tracker state of `WorkdayTracker`: the hook's
`currentSession`, the persisted `work_sessions` row it mirrors, the entry
ledger, and the `currentEntryId` ref. -/
structure TrackerState where
  currentSession : Option WorkSession
  dbSession : Option WorkSession
  entries : List WorkEntry
  currentEntryId : Option String
  deriving Repr, DecidableEq

/-- The `TimerState` interface of `WorkdayTracker.tsx` and the
`getTimerState` projection (lines 73–95): ISO strings parse back to the
instants they encode, so the conversion is field selection here. -/
structure TimerState where
  isRunning : Bool
  isPaused : Bool
  startTime : Option Int
  totalWorkedMs : Int
  totalPausedMs : Int
  currentSessionStart : Option Int
  pauseStartTime : Option Int
  deriving Repr, DecidableEq

/-- `getTimerState` of `WorkdayTracker.tsx`. -/
def getTimerState (s? : Option WorkSession) : TimerState :=
  match s? with
  | none =>
    { isRunning := false, isPaused := false, startTime := none,
      totalWorkedMs := 0, totalPausedMs := 0,
      currentSessionStart := none, pauseStartTime := none }
  | some s =>
    { isRunning := s.is_running, isPaused := s.is_paused,
      startTime := s.start_time,
      totalWorkedMs := s.total_worked_ms, totalPausedMs := s.total_paused_ms,
      currentSessionStart := s.current_session_start,
      pauseStartTime := s.pause_start_time }

/-- Arrival instant as recomputed at every read (`calculateCurrentStats`
lines 114–122) and at setup (`startSetup` lines 194–201): the arrival
time-of-day placed on today's date, rolled back one day when it lies in
the future relative to `now`. -/
def arrivalInstant (midnight now : Int) (h m : Nat) : Int :=
  let arrivalToday := midnight + ((h * 60 + m : Nat) : Int) * msPerMinute
  if arrivalToday > now then arrivalToday - msPerDay else arrivalToday

/-- The record returned by `calculateCurrentStats`. -/
structure Stats where
  totalWorkedMs : Int
  totalPausedMs : Int
  remainingMs : Int
  requiredMs : Int
  leaveTime : Int
  originalLeaveTime : Int
  progressPercentage : ℚ
  isComplete : Bool
  deriving Repr, DecidableEq

/-- `calculateCurrentStats` of `WorkdayTracker.tsx` (lines 106–159), the
stats projector, for a non-null `currentSession`.  The source's unused
local `timeSinceArrivalMs` is dropped.  `progressPercentage` is exact
rational division (the source's floating division is exact only up to
rounding; no claim here depends on its value, and the source yields a
non-finite value when `requiredMs = 0` where `ℚ` division yields `0`). -/
def calculateCurrentStats (midnight now : Int) (s : WorkSession) : Stats :=
  let arrivalToday := arrivalInstant midnight now s.arrival_time.1 s.arrival_time.2
  let requiredMs : Int :=
    ((s.required_work_hours * 60 + s.required_work_minutes : Nat) : Int) * msPerMinute
  let timer := getTimerState (some s)
  let totalWorkedMs :=
    timer.totalWorkedMs +
      (match timer.isRunning, timer.currentSessionStart with
        | true, some t => now - t
        | _, _ => 0)
  let totalPausedMs :=
    timer.totalPausedMs +
      (match timer.isPaused, timer.pauseStartTime with
        | true, some t => now - t
        | _, _ => 0)
  { totalWorkedMs := totalWorkedMs
    totalPausedMs := totalPausedMs
    remainingMs := max 0 (requiredMs - totalWorkedMs)
    requiredMs := requiredMs
    leaveTime := arrivalToday + requiredMs + totalPausedMs
    originalLeaveTime := arrivalToday + requiredMs
    progressPercentage := min 100 ((totalWorkedMs : ℚ) / (requiredMs : ℚ) * 100)
    isComplete := decide (requiredMs ≤ totalWorkedMs) }

/-- The `updateSession` payload of `pauseTimer` (`WorkdayTracker.tsx`
lines 271–286) applied to the session row: fold `now -
current_session_start` (or `0` when the anchor is null) into
`total_worked_ms`, clear the running anchor, set the pause anchor. -/
def pauseSessionUpd (now : Int) (s : WorkSession) : WorkSession :=
  let sessionTime := match s.current_session_start with
    | some t => now - t
    | none => 0
  { s with
    is_running := false
    is_paused := true
    total_worked_ms := s.total_worked_ms + sessionTime
    current_session_start := none
    pause_start_time := some now }

/-- The `updateSession` payload of `resumeTimer` (`WorkdayTracker.tsx`
lines 302–317) applied to the session row. -/
def resumeSessionUpd (now : Int) (s : WorkSession) : WorkSession :=
  let pauseTime := match s.pause_start_time with
    | some t => now - t
    | none => 0
  { s with
    is_running := true
    is_paused := false
    total_paused_ms := s.total_paused_ms + pauseTime
    current_session_start := some now
    pause_start_time := none }

/-- The `updateSession` payload of `completeSession`
(`useWorkSession.ts` lines 141–157): deactivate and clear both anchors;
the accumulators are not touched. -/
def completeSessionUpd (s : WorkSession) : WorkSession :=
  { s with
    is_active := false
    is_running := false
    is_paused := false
    current_session_start := none
    pause_start_time := none }

/-- `pauseTimer` of `WorkdayTracker.tsx` (lines 271–300): no-op when
there is no current session; otherwise updates the session and mirrors
the new worked total and `paused` status onto the tracked entry. -/
def pauseTimer (now : Int) (ts : TrackerState) : TrackerState :=
  match ts.currentSession with
  | none => ts
  | some s =>
    let s' := pauseSessionUpd now s
    let entries' := match ts.currentEntryId with
      | none => ts.entries
      | some eid =>
        updateEntry ts.entries eid
          ({ total_worked_ms := some s'.total_worked_ms, status := some "paused" })
    { ts with currentSession := some s', dbSession := some s', entries := entries' }

/-- `resumeTimer` of `WorkdayTracker.tsx` (lines 302–331). -/
def resumeTimer (now : Int) (ts : TrackerState) : TrackerState :=
  match ts.currentSession with
  | none => ts
  | some s =>
    let s' := resumeSessionUpd now s
    let entries' := match ts.currentEntryId with
      | none => ts.entries
      | some eid =>
        updateEntry ts.entries eid
          ({ total_paused_ms := some s'.total_paused_ms, status := some "active" })
    { ts with currentSession := some s', dbSession := some s', entries := entries' }

/-- `addManualPauseTime` of `WorkdayTracker.tsx` (lines 395–428): the
manual pause input `(h, m)` is converted to milliseconds; a non-positive
duration shows a toast and changes nothing; otherwise the duration is
added to `total_paused_ms` of the session and of the tracked entry. -/
def addManualPauseTime (h m : Nat) (ts : TrackerState) : TrackerState :=
  match ts.currentSession with
  | none => ts
  | some s =>
    let additionalPauseMs : Int := ((h * 60 + m : Nat) : Int) * msPerMinute
    if additionalPauseMs ≤ 0 then ts
    else
      let s' := { s with total_paused_ms := s.total_paused_ms + additionalPauseMs }
      let entries' := match ts.currentEntryId with
        | none => ts.entries
        | some eid =>
          updateEntry ts.entries eid
            ({ total_paused_ms := some s'.total_paused_ms })
      { ts with currentSession := some s', dbSession := some s', entries := entries' }

/-- `completeWorkday` of `WorkdayTracker.tsx` (lines 333–358): finalise
the tracked entry with `check_out = now`, the stored worked total plus
the open running interval, and status `completed`; then `completeSession`
deactivates the persisted session row and the in-memory session and entry
references are cleared. -/
def completeWorkday (now : Int) (ts : TrackerState) : TrackerState :=
  match ts.currentSession with
  | none => ts
  | some s =>
    let timer := getTimerState (some s)
    let entries' := match ts.currentEntryId with
      | none => ts.entries
      | some eid =>
        let sessionTime := match timer.currentSessionStart with
          | some t => now - t
          | none => 0
        let totalWorked := timer.totalWorkedMs + sessionTime
        updateEntry ts.entries eid
          ({ check_out := some now, total_worked_ms := some totalWorked,
             status := some "completed" })
    { currentSession := none
      dbSession := some (completeSessionUpd s)
      entries := entries'
      currentEntryId := none }

/-- `startSetup` of `WorkdayTracker.tsx` (lines 181–247) together with
`createSession` (`useWorkSession.ts` lines 69–115): aborts (toast, no
mutation) when the arrival hours, arrival minutes or required hours field
is the empty string; otherwise inserts the session row, immediately
overwrites it with the already-worked time and the running anchor, and
prepends the new entry checked in at the arrival instant.  `sessionId`
and `entryId` stand for the database-generated ids. -/
def startSetup (now midnight : Int) (sessionId entryId : String)
    (arrH arrM reqH : Option Nat) (reqM : Nat) (ts : TrackerState) :
    TrackerState :=
  match arrH, arrM, reqH with
  | some ah, some am, some rh =>
    let arrivalToday := arrivalInstant midnight now ah am
    let alreadyWorkedMs : Int := max 0 (now - arrivalToday)
    let s0 : WorkSession :=
      { arrival_time := (ah, am)
        required_work_hours := rh
        required_work_minutes := reqM
        is_active := true
        is_running := true
        is_paused := false
        start_time := some now
        total_worked_ms := 0
        total_paused_ms := 0
        current_session_start := some now
        pause_start_time := none }
    let s1 := { s0 with
      total_worked_ms := alreadyWorkedMs
      current_session_start := some now
      is_running := true }
    let entry : WorkEntry :=
      { id := entryId
        session_id := sessionId
        date := arrivalToday
        check_in := arrivalToday
        check_out := none
        total_worked_ms := alreadyWorkedMs
        total_paused_ms := 0
        name := none
        status := "active" }
    { currentSession := some s1
      dbSession := some s1
      entries := entry :: ts.entries
      currentEntryId := some entryId }
  | _, _, _ => ts

/-- The real-time entry update effect of `WorkdayTracker.tsx`
(lines 433–440): while the timer runs and an entry is tracked, push the
projected worked total onto the entry, with status `completed` as soon as
the projection says the required time is reached, `active` otherwise. -/
def realtimeEntryUpdate (midnight now : Int) (ts : TrackerState) : TrackerState :=
  match ts.currentSession, ts.currentEntryId with
  | some s, some eid =>
    if s.is_running then
      let st := calculateCurrentStats midnight now s
      let entries' :=
        updateEntry ts.entries eid
          ({ total_worked_ms := some st.totalWorkedMs,
             status := some (if st.isComplete then "completed" else "active") })
      { ts with entries := entries' }
    else ts
  | _, _ => ts

/-! ## Reachability and concrete states used in witnesses -/

/-- Tracker states reachable by a successful `startSetup` (create)
followed by any sequence of `pauseTimer`, `resumeTimer` and
`addManualPauseTime` operations. -/
inductive ReachableAfterCreate : TrackerState → Prop
  | create (now midnight : Int) (sid eid : String) (ah am rh rm : Nat)
      (ts : TrackerState) :
      ReachableAfterCreate
        (startSetup now midnight sid eid (some ah) (some am) (some rh) rm ts)
  | pause (now : Int) {ts : TrackerState} (h : ReachableAfterCreate ts) :
      ReachableAfterCreate (pauseTimer now ts)
  | resume (now : Int) {ts : TrackerState} (h : ReachableAfterCreate ts) :
      ReachableAfterCreate (resumeTimer now ts)
  | manual (h m : Nat) {ts : TrackerState} (hr : ReachableAfterCreate ts) :
      ReachableAfterCreate (addManualPauseTime h m ts)

/-- The empty tracker state (no session, no entries). -/
def emptyTracker : TrackerState :=
  { currentSession := none, dbSession := none, entries := [], currentEntryId := none }

/-- Concrete state: setup at 10:00 with arrival 08:00 and 8h required
(times in ms on a day starting at instant 0). -/
def setupAt10 : TrackerState :=
  startSetup 36000000 0 "s1" "e1" (some 8) (some 0) (some 8) 0 emptyTracker

/-- The session record of `setupAt10`. -/
def sessAt10 : WorkSession :=
  { arrival_time := (8, 0)
    required_work_hours := 8
    required_work_minutes := 0
    is_active := true
    is_running := true
    is_paused := false
    start_time := some 36000000
    total_worked_ms := 7200000
    total_paused_ms := 0
    current_session_start := some 36000000
    pause_start_time := none }

/-! ## Claim theorems -/

/-- C5: for every reachable session state produced by any sequence of
pause, resume and addManualPause operations after create, the projected
leave time at every read equals the (recomputed) arrival instant plus the
required duration plus the paused total shown at that read, the latter
including a live paused interval when currently paused. -/
theorem leaveTime_eq_arrival_add_required_add_paused
    {ts : TrackerState} (hr : ReachableAfterCreate ts) (s : WorkSession)
    (hs : ts.currentSession = some s) (midnight now : Int) :
    (calculateCurrentStats midnight now s).leaveTime =
      arrivalInstant midnight now s.arrival_time.1 s.arrival_time.2 +
        (calculateCurrentStats midnight now s).requiredMs +
        (calculateCurrentStats midnight now s).totalPausedMs := by
  simp [calculateCurrentStats, getTimerState, add_assoc]

/-- Witness for C5: the invariant evaluated on the concrete state created
at 10:00 (arrival 08:00, 8h required). -/
theorem leaveTime_eq_arrival_add_required_add_paused_witness :
    (calculateCurrentStats 0 36000000 sessAt10).leaveTime =
      arrivalInstant 0 36000000 sessAt10.arrival_time.1 sessAt10.arrival_time.2 +
        (calculateCurrentStats 0 36000000 sessAt10).requiredMs +
        (calculateCurrentStats 0 36000000 sessAt10).totalPausedMs :=
  leaveTime_eq_arrival_add_required_add_paused
    (ReachableAfterCreate.create 36000000 0 "s1" "e1" 8 0 8 0 emptyTracker)
    sessAt10 (by decide) 0 36000000


/-- C6: `startSetup` places the arrival time-of-day on today's date and
rolls it back by exactly one day when it lies in the future relative to
the clock (shown here at an instant `n'` with the arrival in its future);
it seeds the session with `total_worked_ms = max 0 (now - arrival)`,
`current_session_start = now`, `total_paused_ms = 0`, `running = true`
and `active = true`; and, when the arrival instant is not in the future
and the required duration is positive, projecting at the same `now`
yields `worked = now - arrival` (non-negative) and
`complete = (required ≤ worked)`. -/
theorem startSetup_seeds_and_projects
    (now midnight n' : Int) (sid eid : String) (ah am rh rm : Nat)
    (ts : TrackerState) (s : WorkSession)
    (hs : (startSetup now midnight sid eid (some ah) (some am) (some rh) rm
            ts).currentSession = some s)
    (harr : midnight + ((ah * 60 + am : Nat) : Int) * msPerMinute ≤ now)
    (hreq : 0 < rh * 60 + rm)
    (hfut : midnight + ((ah * 60 + am : Nat) : Int) * msPerMinute > n') :
    arrivalInstant midnight n' ah am =
      midnight + ((ah * 60 + am : Nat) : Int) * msPerMinute - msPerDay ∧
    s.total_worked_ms = max 0 (now - arrivalInstant midnight now ah am) ∧
    s.current_session_start = some now ∧
    s.total_paused_ms = 0 ∧
    s.is_running = true ∧
    s.is_active = true ∧
    (calculateCurrentStats midnight now s).totalWorkedMs =
      now - arrivalInstant midnight now ah am ∧
    0 ≤ (calculateCurrentStats midnight now s).totalWorkedMs ∧
    (calculateCurrentStats midnight now s).isComplete =
      decide ((calculateCurrentStats midnight now s).requiredMs ≤
        (calculateCurrentStats midnight now s).totalWorkedMs) := by
  have hle : ¬ (midnight + ((ah * 60 + am : Nat) : Int) * msPerMinute > now) := by
    omega
  simp only [startSetup, Option.some.injEq] at hs
  subst hs
  refine ⟨?_, rfl, rfl, rfl, rfl, rfl, ?_, ?_, rfl⟩
  · simp only [arrivalInstant, if_pos hfut]
  · simp only [calculateCurrentStats, getTimerState, arrivalInstant, if_neg hle]
    omega
  · simp only [calculateCurrentStats, getTimerState, arrivalInstant, if_neg hle]
    omega

/-- Witness for C6: create at 10:00 (36000000 ms), arrival 08:00,
required 8h, with the rollback clause shown at 07:00 (25200000 ms). -/
theorem startSetup_seeds_and_projects_witness :
    arrivalInstant 0 25200000 8 0 =
      (0 : Int) + ((8 * 60 + 0 : Nat) : Int) * msPerMinute - msPerDay ∧
    sessAt10.total_worked_ms = max 0 (36000000 - arrivalInstant 0 36000000 8 0) ∧
    sessAt10.current_session_start = some 36000000 ∧
    sessAt10.total_paused_ms = 0 ∧
    sessAt10.is_running = true ∧
    sessAt10.is_active = true ∧
    (calculateCurrentStats 0 36000000 sessAt10).totalWorkedMs =
      36000000 - arrivalInstant 0 36000000 8 0 ∧
    0 ≤ (calculateCurrentStats 0 36000000 sessAt10).totalWorkedMs ∧
    (calculateCurrentStats 0 36000000 sessAt10).isComplete =
      decide ((calculateCurrentStats 0 36000000 sessAt10).requiredMs ≤
        (calculateCurrentStats 0 36000000 sessAt10).totalWorkedMs) :=
  startSetup_seeds_and_projects 36000000 0 25200000 "s1" "e1" 8 0 8 0
    emptyTracker sessAt10 (by decide) (by decide) (by decide) (by decide)

/-- C7: for a Running session, `pause()` immediately followed by
`resume()` with zero elapsed wall time between and around the two calls
(both run at the instant the open interval was anchored) leaves the
stored `total_worked_ms` and `total_paused_ms` accumulators unchanged. -/
theorem pause_then_resume_zero_elapsed_preserves_accumulators
    (s : WorkSession) (now : Int)
    (hrun : s.is_running = true)
    (hanchor : s.current_session_start = some now) :
    (resumeSessionUpd now (pauseSessionUpd now s)).total_worked_ms =
      s.total_worked_ms ∧
    (resumeSessionUpd now (pauseSessionUpd now s)).total_paused_ms =
      s.total_paused_ms := by
  simp [pauseSessionUpd, resumeSessionUpd, hanchor]

/-- Witness for C7: a running session anchored at 36000000, paused and
resumed at that same instant. -/
theorem pause_then_resume_zero_elapsed_preserves_accumulators_witness :
    (resumeSessionUpd 36000000 (pauseSessionUpd 36000000 sessAt10)).total_worked_ms =
      sessAt10.total_worked_ms ∧
    (resumeSessionUpd 36000000 (pauseSessionUpd 36000000 sessAt10)).total_paused_ms =
      sessAt10.total_paused_ms :=
  pause_then_resume_zero_elapsed_preserves_accumulators sessAt10 36000000
    (by decide) (by decide)

/-- The persisted `work_sessions` shape of §6 restricted to the fields
the projector consumes (flags, anchors, accumulators, schedule). -/
structure SerializedSession where
  arrival_time : Nat × Nat
  required_work_hours : Nat
  required_work_minutes : Nat
  is_active : Bool
  is_running : Bool
  is_paused : Bool
  start_time : Option Int
  total_worked_ms : Int
  total_paused_ms : Int
  current_session_start : Option Int
  pause_start_time : Option Int
  deriving Repr, DecidableEq

/-- Write a session's persisted fields out (an instant serialises to the
ISO string that parses back to it, so serialisation keeps the value). -/
def serializeSession (s : WorkSession) : SerializedSession :=
  { arrival_time := s.arrival_time
    required_work_hours := s.required_work_hours
    required_work_minutes := s.required_work_minutes
    is_active := s.is_active
    is_running := s.is_running
    is_paused := s.is_paused
    start_time := s.start_time
    total_worked_ms := s.total_worked_ms
    total_paused_ms := s.total_paused_ms
    current_session_start := s.current_session_start
    pause_start_time := s.pause_start_time }

/-- Rebuild the in-memory session from its persisted fields, as
`loadCurrentSession` and `getTimerState` do on reload. -/
def rehydrateSession (r : SerializedSession) : WorkSession :=
  { arrival_time := r.arrival_time
    required_work_hours := r.required_work_hours
    required_work_minutes := r.required_work_minutes
    is_active := r.is_active
    is_running := r.is_running
    is_paused := r.is_paused
    start_time := r.start_time
    total_worked_ms := r.total_worked_ms
    total_paused_ms := r.total_paused_ms
    current_session_start := r.current_session_start
    pause_start_time := r.pause_start_time }

/-- C8: serialising a session's persisted fields and reconstructing the
in-memory state yields an identical projection at the same instant —
anchor-based recomputation loses nothing across a reload. -/
theorem project_unchanged_after_reload (midnight now : Int) (s : WorkSession) :
    calculateCurrentStats midnight now (rehydrateSession (serializeSession s)) =
      calculateCurrentStats midnight now s := rfl

/-- C9: `pauseTimer` with a null running anchor folds exactly `0` into
`total_worked_ms`, and `resumeTimer` with a null pause anchor folds
exactly `0` into `total_paused_ms`; both are total functions on every
tracker state (they are Lean functions), never an undefined value. -/
theorem pause_resume_null_anchor_fold_zero
    (now now2 : Int) (ts ts2 : TrackerState) (s s2 sp sr : WorkSession)
    (hs : ts.currentSession = some s)
    (hcs : s.current_session_start = none)
    (hp : (pauseTimer now ts).currentSession = some sp)
    (hs2 : ts2.currentSession = some s2)
    (hps : s2.pause_start_time = none)
    (hr : (resumeTimer now2 ts2).currentSession = some sr) :
    sp.total_worked_ms = s.total_worked_ms ∧
    sr.total_paused_ms = s2.total_paused_ms := by
  simp only [pauseTimer, hs] at hp
  simp only [resumeTimer, hs2] at hr
  constructor
  · cases hp
    simp [pauseSessionUpd, hcs]
  · cases hr
    simp [resumeSessionUpd, hps]

/-- The session of `setupAt10` paused at 11:00 (39600000 ms). -/
def pausedAt11 : WorkSession := pauseSessionUpd 39600000 sessAt10

/-- A tracker state holding the paused session `pausedAt11`. -/
def trackerPausedAt11 : TrackerState :=
  { currentSession := some pausedAt11, dbSession := some pausedAt11,
    entries := [], currentEntryId := none }

/-- Witness for C9: pausing a session whose running anchor is null leaves
its worked total unchanged; resuming a session whose pause anchor is null
leaves its paused total unchanged (both at 12:00). -/
theorem pause_resume_null_anchor_fold_zero_witness :
    (pauseSessionUpd 43200000 pausedAt11).total_worked_ms =
      pausedAt11.total_worked_ms ∧
    (resumeSessionUpd 43200000 sessAt10).total_paused_ms =
      sessAt10.total_paused_ms :=
  pause_resume_null_anchor_fold_zero 43200000 43200000 trackerPausedAt11
    setupAt10 pausedAt11 sessAt10
    (pauseSessionUpd 43200000 pausedAt11) (resumeSessionUpd 43200000 sessAt10)
    (by decide) (by decide) (by decide) (by decide) (by decide) (by decide)

/-- `updateEntry` never changes the number of ledger rows. -/
theorem updateEntry_length (es : List WorkEntry) (entryId : String)
    (u : EntryUpdate) : (updateEntry es entryId u).length = es.length := by
  unfold updateEntry
  split
  · exact List.length_map es _
  · rfl

/-- `updateEntry` acts pointwise: the row at each position is merged with
the update when its id matches and kept as is otherwise. -/
theorem updateEntry_getElem (es : List WorkEntry) (entryId : String)
    (u : EntryUpdate) (i : Nat) (e : WorkEntry) (he : es[i]? = some e) :
    (updateEntry es entryId u)[i]? =
      some (if e.id = entryId then applyEntryUpdate u e else e) := by
  unfold updateEntry
  split
  · rw [List.getElem?_map, he]
    rfl
  · rename_i hany
    rw [he]
    have hmem : e ∈ es := List.getElem?_mem he
    have : ¬ (e.id = entryId) := by
      intro hid
      apply hany
      refine List.any_eq_true.mpr ⟨e, hmem, ?_⟩
      simp [hid]
    simp [this]

/-- C10: `renameEntry` changes only the name of the entry with the given
id — its date, check-in, check-out, totals, status and session reference
are untouched — and leaves every other entry and the ledger's length
unchanged. -/
theorem renameEntry_changes_only_name (es : List WorkEntry)
    (entryId newName : String) (i : Nat) (e : WorkEntry)
    (he : es[i]? = some e) :
    (renameEntry es entryId newName).length = es.length ∧
    (renameEntry es entryId newName)[i]? =
      some (if e.id = entryId then { e with name := some newName } else e) := by
  refine ⟨updateEntry_length es entryId _, ?_⟩
  rw [renameEntry, updateEntry_getElem es entryId _ i e he]
  by_cases hid : e.id = entryId <;>
    simp [hid, applyEntryUpdate]

/-- A live ledger entry used in witnesses. -/
def entryOne : WorkEntry :=
  { id := "e1", session_id := "s1", date := 0, check_in := 28800000,
    check_out := none, total_worked_ms := 100, total_paused_ms := 5,
    name := none, status := "active" }

/-- A completed historical ledger entry used in witnesses. -/
def entryTwo : WorkEntry :=
  { id := "e2", session_id := "s0", date := 0, check_in := 0,
    check_out := some 1000, total_worked_ms := 7, total_paused_ms := 3,
    name := some "monday", status := "completed" }

/-- A two-row ledger used in witnesses. -/
def ledgerTwo : List WorkEntry := [entryOne, entryTwo]

/-- Witness for C10: renaming `e1` in the two-row ledger keeps the length
and merges only the name into the matching row. -/
theorem renameEntry_changes_only_name_witness :
    (renameEntry ledgerTwo "e1" "focus day").length = ledgerTwo.length ∧
    (renameEntry ledgerTwo "e1" "focus day")[0]? =
      some (if entryOne.id = "e1"
        then { entryOne with name := some "focus day" } else entryOne) :=
  renameEntry_changes_only_name ledgerTwo "e1" "focus day" 0 entryOne (by decide)

/-- A session paused with an open pause interval: paused at instant 100
with 40 ms worked and 0 ms paused banked. -/
def pausedOpenSess : WorkSession :=
  { arrival_time := (8, 0), required_work_hours := 8, required_work_minutes := 0,
    is_active := true, is_running := false, is_paused := true,
    start_time := some 50, total_worked_ms := 40, total_paused_ms := 0,
    current_session_start := none, pause_start_time := some 100 }

/-- The ledger entry tracked by `trackerPausedOpen`. -/
def entryNine : WorkEntry :=
  { id := "e9", session_id := "s9", date := 0, check_in := 50,
    check_out := none, total_worked_ms := 40, total_paused_ms := 0,
    name := none, status := "paused" }

/-- Tracker state holding `pausedOpenSess` with tracked entry `e9`. -/
def trackerPausedOpen : TrackerState :=
  { currentSession := some pausedOpenSess, dbSession := some pausedOpenSess,
    entries := [entryNine], currentEntryId := some "e9" }

/-- Counterexample to C1: completing at instant 200 a session paused
since instant 100 leaves `total_paused_ms = 0` on the persisted session
row and on the finalised entry — the open paused interval of 100 ms is
not folded into the paused accumulator as `resume()` would fold it. -/
theorem completeWorkday_drops_open_paused_interval :
    pausedOpenSess.is_paused = true ∧
    pausedOpenSess.pause_start_time = some 100 ∧
    pausedOpenSess.total_paused_ms = 0 ∧
    (completeWorkday 200 trackerPausedOpen).dbSession =
      some (completeSessionUpd pausedOpenSess) ∧
    (completeSessionUpd pausedOpenSess).total_paused_ms = 0 ∧
    (completeWorkday 200 trackerPausedOpen).entries[0]? =
      some { entryNine with check_out := some 200, total_worked_ms := 40,
                            status := "completed" } ∧
    ({ entryNine with check_out := some 200, total_worked_ms := 40,
                      status := "completed" } : WorkEntry).total_paused_ms = 0 ∧
    (0 : Int) ≠ 0 + (200 - 100) := by decide

/-- C1 (amended): `completeWorkday` folds the open running interval
(`now - current_session_start`, `0` when the anchor is null) into the
tracked entry's worked total only, setting its `check_out = now` and
status `completed` in that update; the persisted session row keeps its
accumulators exactly as stored (an open paused interval is folded
nowhere) while `active`, `running`, `paused` are cleared and both anchors
nulled; the in-memory session and entry references are cleared. -/
theorem completeWorkday_amended
    (now : Int) (ts : TrackerState) (s : WorkSession) (eid : String)
    (i : Nat) (e : WorkEntry)
    (hs : ts.currentSession = some s)
    (heid : ts.currentEntryId = some eid)
    (he : ts.entries[i]? = some e) :
    (completeWorkday now ts).dbSession =
      some { s with is_active := false, is_running := false,
                    is_paused := false, current_session_start := none,
                    pause_start_time := none } ∧
    (completeWorkday now ts).currentSession = none ∧
    (completeWorkday now ts).currentEntryId = none ∧
    (completeWorkday now ts).entries[i]? =
      some (if e.id = eid
        then { e with
                 check_out := some now,
                 total_worked_ms := s.total_worked_ms +
                   (match s.current_session_start with
                     | some t => now - t
                     | none => 0),
                 status := "completed" }
        else e) := by
  simp only [completeWorkday, hs, heid]
  refine ⟨rfl, trivial, trivial, ?_⟩
  rw [updateEntry_getElem ts.entries eid _ i e he]
  by_cases hid : e.id = eid <;>
    simp [hid, applyEntryUpdate, getTimerState]

/-- Tracker state holding the running session `sessAt10` with tracked
entry `e1`. -/
def trackerRunningEntry : TrackerState :=
  { currentSession := some sessAt10, dbSession := some sessAt10,
    entries := [entryOne], currentEntryId := some "e1" }

/-- Witness for the amended C1: completing the 10:00 setup at 12:00. -/
theorem completeWorkday_amended_witness :
    (completeWorkday 43200000 trackerRunningEntry).dbSession =
      some { sessAt10 with is_active := false, is_running := false,
                           is_paused := false, current_session_start := none,
                           pause_start_time := none } ∧
    (completeWorkday 43200000 trackerRunningEntry).currentSession = none ∧
    (completeWorkday 43200000 trackerRunningEntry).currentEntryId = none ∧
    (completeWorkday 43200000 trackerRunningEntry).entries[0]? =
      some (if entryOne.id = "e1"
        then { entryOne with
                 check_out := some 43200000,
                 total_worked_ms :=
                   sessAt10.total_worked_ms + (43200000 - 36000000),
                 status := "completed" }
        else entryOne) :=
  completeWorkday_amended 43200000 trackerRunningEntry sessAt10 "e1" 0 entryOne
    (by decide) (by decide) (by decide)

/-- A running session past its (one-minute) required duration: 120000 ms
worked and banked, anchored at instant 1000. -/
def overworkedSess : WorkSession :=
  { arrival_time := (8, 0), required_work_hours := 0, required_work_minutes := 1,
    is_active := true, is_running := true, is_paused := false,
    start_time := some 0, total_worked_ms := 120000, total_paused_ms := 0,
    current_session_start := some 1000, pause_start_time := none }

/-- Tracker state holding `overworkedSess` with tracked entry `e1`. -/
def trackerOverworked : TrackerState :=
  { currentSession := some overworkedSess, dbSession := some overworkedSess,
    entries := [entryOne], currentEntryId := some "e1" }

/-- Counterexample to C2: the real-time entry-update effect, run at
instant 1000 once the worked total (120000 ms) has reached the required
duration (60000 ms), sets the tracked entry's status to `completed`
while leaving `check_out` null — `checkOut` non-null iff
`status = completed` fails on this entry. -/
theorem realtime_update_sets_completed_without_checkout :
    (realtimeEntryUpdate 0 1000 trackerOverworked).entries[0]? =
      some { entryOne with total_worked_ms := 120000, status := "completed" } ∧
    ({ entryOne with total_worked_ms := 120000,
                     status := "completed" } : WorkEntry).status = "completed" ∧
    ({ entryOne with total_worked_ms := 120000,
                     status := "completed" } : WorkEntry).check_out = none := by
  decide

/-- The ledger's column of check-out instants. -/
def checkOuts (es : List WorkEntry) : List (Option Int) :=
  es.map fun e => e.check_out

/-- An `updateEntry` whose update object omits `check_out` leaves every
entry's check-out instant in place. -/
theorem checkOuts_updateEntry (es : List WorkEntry) (entryId : String)
    (u : EntryUpdate) (hu : u.check_out = none) :
    checkOuts (updateEntry es entryId u) = checkOuts es := by
  unfold checkOuts updateEntry
  split
  · rw [List.map_map]
    apply List.map_congr_left
    intro e _
    by_cases hid : e.id = entryId <;>
      simp [hid, applyEntryUpdate, hu]
  · rfl

/-- C2 (amended): `check_out` is written only by `completeWorkday`, which
sets it together with status `completed` in one update on the tracked
entry; the entry updates issued by `pauseTimer`, `resumeTimer`,
`addManualPauseTime` and the real-time update effect never touch any
entry's `check_out` — in particular the real-time effect can set status
`completed` while `check_out` stays null, so `check_out` non-null implies
status `completed` but not conversely. -/
theorem checkout_written_only_with_completed
    (midnight now np nr nm : Int) (h m : Nat)
    (ts : TrackerState) (s : WorkSession) (eid : String)
    (i : Nat) (e : WorkEntry)
    (hs : ts.currentSession = some s)
    (heid : ts.currentEntryId = some eid)
    (he : ts.entries[i]? = some e)
    (hid : e.id = eid) :
    checkOuts (pauseTimer np ts).entries = checkOuts ts.entries ∧
    checkOuts (resumeTimer nr ts).entries = checkOuts ts.entries ∧
    checkOuts (addManualPauseTime h m ts).entries = checkOuts ts.entries ∧
    checkOuts (realtimeEntryUpdate midnight nm ts).entries = checkOuts ts.entries ∧
    (completeWorkday now ts).entries[i]? =
      some { e with
               check_out := some now,
               total_worked_ms := s.total_worked_ms +
                 (match s.current_session_start with
                   | some t => now - t
                   | none => 0),
               status := "completed" } := by
  refine ⟨?_, ?_, ?_, ?_, ?_⟩
  · simp only [pauseTimer, hs, heid]
    exact checkOuts_updateEntry _ _ _ rfl
  · simp only [resumeTimer, hs, heid]
    exact checkOuts_updateEntry _ _ _ rfl
  · simp only [addManualPauseTime, hs, heid]
    split
    · rfl
    · exact checkOuts_updateEntry _ _ _ rfl
  · simp only [realtimeEntryUpdate, hs, heid]
    split
    · exact checkOuts_updateEntry _ _ _ rfl
    · rfl
  · simp only [completeWorkday, hs, heid]
    rw [updateEntry_getElem ts.entries eid _ i e he]
    simp [hid, applyEntryUpdate, getTimerState]

/-- Witness for the amended C2, on the overworked running tracker. -/
theorem checkout_written_only_with_completed_witness :
    checkOuts (pauseTimer 2000 trackerOverworked).entries =
      checkOuts trackerOverworked.entries ∧
    checkOuts (resumeTimer 3000 trackerOverworked).entries =
      checkOuts trackerOverworked.entries ∧
    checkOuts (addManualPauseTime 0 15 trackerOverworked).entries =
      checkOuts trackerOverworked.entries ∧
    checkOuts (realtimeEntryUpdate 0 4000 trackerOverworked).entries =
      checkOuts trackerOverworked.entries ∧
    (completeWorkday 5000 trackerOverworked).entries[0]? =
      some { entryOne with
               check_out := some 5000,
               total_worked_ms := overworkedSess.total_worked_ms + (5000 - 1000),
               status := "completed" } :=
  checkout_written_only_with_completed 0 5000 2000 3000 4000 0 15
    trackerOverworked overworkedSess "e1" 0 entryOne
    (by decide) (by decide) (by decide) (by decide)

/-- Counterexample to C3: `pauseTimer` invoked on an already-Paused
session does not fail and does not leave the state unchanged — it
overwrites the pause anchor (39600000 becomes 43200000) and rewrites the
session, so a pause() from the Paused state mutates the session. -/
theorem pause_while_paused_mutates :
    trackerPausedAt11.currentSession = some pausedAt11 ∧
    pausedAt11.is_paused = true ∧
    pausedAt11.is_running = false ∧
    pausedAt11.pause_start_time = some 39600000 ∧
    (pauseSessionUpd 43200000 pausedAt11).pause_start_time = some 43200000 ∧
    pauseTimer 43200000 trackerPausedAt11 ≠ trackerPausedAt11 := by decide

/-- C3 (amended): after `completeWorkday` there is no current session,
so `pauseTimer`, `resumeTimer` and `addManualPauseTime` all return early
and leave the whole tracker state unchanged; but a pause() from the
Paused state and a resume() from the Running state are not rejected: with
the opposite anchor null they fold `0` into the respective accumulator
and overwrite the pause (resp. running) anchor with `now`. -/
theorem invalid_transitions_amended
    (now n : Int) (h m : Nat) (ts : TrackerState) (sp sr : WorkSession)
    (hpp : sp.is_paused = true) (hpr : sp.is_running = false)
    (hpc : sp.current_session_start = none)
    (hrr : sr.is_running = true) (hrp : sr.pause_start_time = none) :
    pauseTimer n (completeWorkday now ts) = completeWorkday now ts ∧
    resumeTimer n (completeWorkday now ts) = completeWorkday now ts ∧
    addManualPauseTime h m (completeWorkday now ts) = completeWorkday now ts ∧
    pauseSessionUpd n sp =
      { sp with is_running := false, is_paused := true,
                pause_start_time := some n } ∧
    resumeSessionUpd n sr =
      { sr with is_running := true, is_paused := false,
                current_session_start := some n } := by
  have hnone : (completeWorkday now ts).currentSession = none := by
    cases hts : ts.currentSession <;> simp [completeWorkday, hts]
  refine ⟨?_, ?_, ?_, ?_, ?_⟩
  · simp only [pauseTimer, hnone]
  · simp only [resumeTimer, hnone]
  · simp only [addManualPauseTime, hnone]
  · simp [pauseSessionUpd, hpc]
  · simp [resumeSessionUpd, hrp]

/-- Witness for the amended C3: complete the running tracker at 12:00,
then try each operation at 13:00; and pause the paused 11:00 session /
resume the running 10:00 session at 13:00. -/
theorem invalid_transitions_amended_witness :
    pauseTimer 46800000 (completeWorkday 43200000 trackerRunningEntry) =
      completeWorkday 43200000 trackerRunningEntry ∧
    resumeTimer 46800000 (completeWorkday 43200000 trackerRunningEntry) =
      completeWorkday 43200000 trackerRunningEntry ∧
    addManualPauseTime 0 30 (completeWorkday 43200000 trackerRunningEntry) =
      completeWorkday 43200000 trackerRunningEntry ∧
    pauseSessionUpd 46800000 pausedAt11 =
      { pausedAt11 with is_running := false, is_paused := true,
                        pause_start_time := some 46800000 } ∧
    resumeSessionUpd 46800000 sessAt10 =
      { sessAt10 with is_running := true, is_paused := false,
                      current_session_start := some 46800000 } :=
  invalid_transitions_amended 43200000 46800000 0 30 trackerRunningEntry
    pausedAt11 sessAt10 (by decide) (by decide) (by decide) (by decide)
    (by decide)

/-- Counterexample to C4: `startSetup` checks only that the arrival
hours, arrival minutes and required-hours fields are non-empty strings;
with required duration 0h 0m — a non-positive required duration — the
create is not aborted: a session is created and the state mutates. -/
theorem create_with_zero_required_duration_not_rejected :
    ((0 * 60 + 0 : Nat) : Int) * msPerMinute ≤ 0 ∧
    (startSetup 36000000 0 "s2" "e2" (some 8) (some 0) (some 0) 0
      emptyTracker).currentSession ≠ none ∧
    startSetup 36000000 0 "s2" "e2" (some 8) (some 0) (some 0) 0
      emptyTracker ≠ emptyTracker := by decide

/-- C4 (amended): `startSetup` aborts with no mutation when the arrival
hours, arrival minutes or required-hours field is missing (the empty
string); a non-positive (zero) required duration is not rejected; and
`addManualPauseTime` with a non-positive duration is rejected with no
field changed. -/
theorem validation_aborts_without_mutation
    (now midnight : Int) (sid eid : String)
    (arrH arrM reqH : Option Nat) (reqM h m : Nat) (ts : TrackerState)
    (hmiss : arrH = none ∨ arrM = none ∨ reqH = none)
    (hd : ((h * 60 + m : Nat) : Int) * msPerMinute ≤ 0) :
    startSetup now midnight sid eid arrH arrM reqH reqM ts = ts ∧
    addManualPauseTime h m ts = ts := by
  constructor
  · rcases hmiss with h1 | h1 | h1
    · subst h1; cases arrM <;> cases reqH <;> rfl
    · subst h1; cases arrH <;> cases reqH <;> rfl
    · subst h1; cases arrH <;> cases arrM <;> rfl
  · cases hts : ts.currentSession with
    | none => simp [addManualPauseTime, hts]
    | some s =>
      simp only [addManualPauseTime, hts]
      split
      · rfl
      · rename_i hc
        exact absurd hd hc

/-- Witness for the amended C4: a missing arrival-hours field on the live
10:00 tracker, and a 0h 0m manual pause on it. -/
theorem validation_aborts_without_mutation_witness :
    startSetup 43200000 0 "s3" "e3" none (some 30) (some 8) 0 setupAt10 =
      setupAt10 ∧
    addManualPauseTime 0 0 setupAt10 = setupAt10 :=
  validation_aborts_without_mutation 43200000 0 "s3" "e3" none (some 30)
    (some 8) 0 0 0 setupAt10 (Or.inl rfl) (by decide)
